import Mathlib

/-!
Shallow embedding of the iTravelSolo travel-matching core
(travel/services/matching.py, proximity_matcher.py, location_tracker.py,
hotspot_detector.py and travel/models.py), together with proofs of the
testable properties stated in the repository specification.

Conventions of the embedding:
  * Python `float` arithmetic is modelled over `ℝ` (the source relies on
    `math.sin`, `math.asin`, `math.atan2`, `math.sqrt`).
  * Django `DecimalField` values are exact decimals, modelled as `ℚ`;
    nullable columns become `Option`.
  * `datetime.date` values are modelled as day ordinals in `ℤ`, so that
    `(end - start).days` is plain subtraction.
  * Python truthiness tests on nullable Decimal columns
    (`if trip.destination_lat and ...`) are modelled faithfully:
    `None` and `0` are falsy.
  * Django querysets over a table are modelled as Lean lists in query
    order; `objects.create` under a `unique_together` constraint is a
    partial operation returning `Option`.
-/

namespace ITravelSolo

/-! ## GeoMath: the Haversine implementations

`haversine_distance` is matching.py lines 13-34 (asin-based).
`calculate_distance_km` is proximity_matcher.py lines 18-42 (atan2-based).
`hotspot_distance` is hotspot_detector.py lines 408-436 (asin-based,
but with the delta angles converted like proximity_matcher).
-/

/-- Python `math.radians`. -/
noncomputable def radians (x : ℝ) : ℝ := x * (Real.pi / 180)

/-- matching.py `haversine_distance`: degrees in, kilometers out,
`c = 2 * asin(sqrt(a))`, Earth radius 6371. -/
noncomputable def haversine_distance (lat1 lon1 lat2 lon2 : ℝ) : ℝ :=
  let lat1r := radians lat1
  let lon1r := radians lon1
  let lat2r := radians lat2
  let lon2r := radians lon2
  let dlat := lat2r - lat1r
  let dlon := lon2r - lon1r
  let a := Real.sin (dlat / 2) ^ 2 +
    Real.cos lat1r * Real.cos lat2r * Real.sin (dlon / 2) ^ 2
  let c := 2 * Real.arcsin (Real.sqrt a)
  c * 6371

/-- Python `math.atan2` (two-argument arctangent), totalized exactly as the
C library function: quadrant corrections for `x < 0`, axis values for
`x = 0`. -/
noncomputable def atan2 (y x : ℝ) : ℝ :=
  if 0 < x then Real.arctan (y / x)
  else if x < 0 then
    (if 0 ≤ y then Real.arctan (y / x) + Real.pi
     else Real.arctan (y / x) - Real.pi)
  else
    (if 0 < y then Real.pi / 2
     else if y < 0 then -(Real.pi / 2)
     else 0)

/-- proximity_matcher.py `calculate_distance_km`:
`c = 2 * atan2(sqrt(a), sqrt(1 - a))`, Earth radius 6371. -/
noncomputable def calculate_distance_km (lat1 lon1 lat2 lon2 : ℝ) : ℝ :=
  let lat1_rad := radians lat1
  let lat2_rad := radians lat2
  let delta_lat := radians (lat2 - lat1)
  let delta_lon := radians (lon2 - lon1)
  let a := Real.sin (delta_lat / 2) ^ 2 +
    Real.cos lat1_rad * Real.cos lat2_rad * Real.sin (delta_lon / 2) ^ 2
  let c := 2 * atan2 (Real.sqrt a) (Real.sqrt (1 - a))
  6371 * c

/-- hotspot_detector.py `HotspotDetector._calculate_distance`:
delta angles via `radians(lat2 - lat1)`, `c = 2 * asin(sqrt(a))`. -/
noncomputable def hotspot_distance (lat1 lng1 lat2 lng2 : ℝ) : ℝ :=
  let lat1_rad := radians lat1
  let lat2_rad := radians lat2
  let dlat := radians (lat2 - lat1)
  let dlng := radians (lng2 - lng1)
  let a := Real.sin (dlat / 2) ^ 2 +
    Real.cos lat1_rad * Real.cos lat2_rad * Real.sin (dlng / 2) ^ 2
  let c := 2 * Real.arcsin (Real.sqrt a)
  6371 * c

/-! ## Data model (travel/models.py) -/

/-- travel/models.py `Trip` (the fields the services read).
`created_at` ordering of the table is reflected by list order. -/
structure Trip where
  id : ℕ
  user : ℕ
  origin : String
  destination : String
  destination_lat : Option ℚ
  destination_lng : Option ℚ
  start_date : ℤ
  end_date : ℤ
  interests : List String
  privacy : String
  is_active : Bool
deriving DecidableEq

/-- `Trip.duration_days` property: `(end_date - start_date).days + 1`. -/
def Trip.duration_days (t : Trip) : ℤ := t.end_date - t.start_date + 1

/-- travel/models.py `TripMatch`.  `trip` is the source trip id and
`trip_user` its owner (the `trip__user` join used by the proximity
queries); `matched_trip` embeds the referenced candidate trip row. -/
structure TripMatch where
  id : ℕ
  trip : ℕ
  trip_user : ℕ
  matched_user : ℕ
  matched_trip : Option Trip
  score : ℝ
  common_interests : Finset String
  distance_km : Option ℝ
  current_distance_km : Option ℝ
  last_distance_update : Option ℤ
  is_proximity_expired : Bool
  status : String

/-! ## MatchScorer (matching.py lines 37-135) -/

/-- matching.py `calculate_date_overlap`. -/
def calculate_date_overlap (trip1 trip2 : Trip) : ℤ :=
  let start := max trip1.start_date trip2.start_date
  let ending := min trip1.end_date trip2.end_date
  if start ≤ ending then ending - start + 1 else 0

/-- matching.py `calculate_interest_match`: Jaccard percentage over the
two interest lists viewed as sets.  Python returns the common interests
as a `set`-ordered list; the embedding keeps the set itself. -/
noncomputable def calculate_interest_match (interests1 interests2 : List String) :
    Finset String × ℝ :=
  if interests1 = [] ∨ interests2 = [] then (∅, 0)
  else
    let common := interests1.toFinset ∩ interests2.toFinset
    let total_unique := (interests1.toFinset ∪ interests2.toFinset).card
    if total_unique = 0 then (∅, 0)
    else (common, ((common.card : ℝ) / (total_unique : ℝ)) * 100)

/-- Python `round(x, 2)` on the exact real value (float ties do not arise
in the properties proved here). -/
noncomputable def round2 (x : ℝ) : ℝ := ((round (x * 100) : ℤ) : ℝ) / 100

/-- Truthiness of a nullable Decimal column: `None` and `0` are falsy. -/
def decTruthy : Option ℚ → Bool
  | none => false
  | some x => decide (x ≠ 0)

/-- `float(...)` of a nullable Decimal that is known truthy. -/
def decFloat (o : Option ℚ) : ℝ := ((o.getD 0 : ℚ) : ℝ)

/-- The breakdown dict built by `calculate_match_score`. -/
structure MatchDetails where
  date_overlap_days : ℤ
  distance_score : ℝ
  interest_score : ℝ
  common_interests : Finset String
  distance_km : Option ℝ

/-- The initial `details` dict of `calculate_match_score`. -/
def emptyDetails : MatchDetails :=
  { date_overlap_days := 0
    distance_score := 0
    interest_score := 0
    common_interests := ∅
    distance_km := none }

/-- The distance block of `calculate_match_score` (lines 95-122): the
raw distance score (30 pts max) and the `distance_km` breakdown entry.
The coordinate guard is the Python truthiness chain
`trip.destination_lat and trip.destination_lng and ...`; when it fails,
a case-insensitive destination-name comparison is used instead. -/
noncomputable def distanceComponent (trip candidate_trip : Trip)
    (max_distance_km : ℝ) : ℝ × Option ℝ :=
  if decTruthy trip.destination_lat ∧ decTruthy trip.destination_lng ∧
      decTruthy candidate_trip.destination_lat ∧
      decTruthy candidate_trip.destination_lng then
    let distance := haversine_distance
      (decFloat trip.destination_lat) (decFloat trip.destination_lng)
      (decFloat candidate_trip.destination_lat)
      (decFloat candidate_trip.destination_lng)
    (if max_distance_km < distance then 0
     else ((max_distance_km - distance) / max_distance_km) * 30,
     some (round2 distance))
  else
    ((if trip.destination.toLower = candidate_trip.destination.toLower
      then 30 else 0), none)

/-- matching.py `calculate_match_score` (lines 65-135): returns
`(score, details)`; score 0 with the empty breakdown when the date
ranges do not overlap, otherwise the weighted sum of date (50), distance
(30) and interest (20) components, rounded to 2 decimals. -/
noncomputable def calculate_match_score (trip candidate_trip : Trip)
    (max_distance_km : ℝ) : ℝ × MatchDetails :=
  let overlap_days := calculate_date_overlap trip candidate_trip
  let max_trip_duration := max trip.duration_days candidate_trip.duration_days
  if overlap_days = 0 then (0, emptyDetails)
  else
    let date_score : ℝ := ((overlap_days : ℝ) / (max_trip_duration : ℝ)) * 50
    let distPair := distanceComponent trip candidate_trip max_distance_km
    let distance_score := distPair.1
    let interestPair := calculate_interest_match trip.interests candidate_trip.interests
    let interest_score := (interestPair.2 / 100) * 20
    let total_score := date_score + distance_score + interest_score
    (round2 total_score,
     { date_overlap_days := overlap_days
       distance_score := round2 distance_score
       interest_score := round2 interest_score
       common_interests := interestPair.1
       distance_km := distPair.2 })

/-! ## MatchFinder (matching.py lines 138-185)

The database visible to `find_trip_matches`: the `Trip` and `TripMatch`
tables plus the social friend graph (`trip.user.social.friends`).
`next_match_id` models fresh primary-key generation. -/

structure MatchDB where
  trips : List Trip
  trip_matches : List TripMatch
  friends : ℕ → List ℕ
  next_match_id : ℕ

/-- `TripMatch.objects.create` under the `Meta.unique_together =
["trip", "matched_user"]` constraint (models.py lines 152-158): the
insert fails (IntegrityError) when a row with the same
`(trip, matched_user)` pair already exists. -/
def tripMatchCreate (db : MatchDB) (m : TripMatch) : Option MatchDB :=
  if db.trip_matches.any (fun m2 => decide (m2.trip = m.trip) &&
      decide (m2.matched_user = m.matched_user)) then none
  else some { db with
    trip_matches := db.trip_matches ++ [m]
    next_match_id := db.next_match_id + 1 }

/-- The candidate queryset filter of `find_trip_matches` (lines 153-163):
public, or friends-only from a friend; not the requesting user's own
trip; and date ranges overlapping. -/
def isCandidate (db : MatchDB) (trip c : Trip) : Bool :=
  (decide (c.privacy = "public") ||
    (decide (c.privacy = "friends_only") && (db.friends trip.user).contains c.user)) &&
  !(decide (c.user = trip.user)) &&
  decide (c.start_date ≤ trip.end_date) &&
  decide (trip.start_date ≤ c.end_date)

/-- The `TripMatch` row built at matching.py lines 172-180. -/
noncomputable def newMatchRow (db : MatchDB) (trip c : Trip)
    (sd : ℝ × MatchDetails) : TripMatch :=
  { id := db.next_match_id
    trip := trip.id
    trip_user := trip.user
    matched_user := c.user
    matched_trip := some c
    score := sd.1
    common_interests := sd.2.common_interests
    distance_km := sd.2.distance_km
    current_distance_km := none
    last_distance_update := none
    is_proximity_expired := false
    status := "pending" }

/-- The candidate loop of `find_trip_matches` (lines 165-181): score each
candidate, create a pending match when score ≥ 30.  Returns the updated
database and the list of created matches, or `none` when an insert
violates the unique constraint. -/
noncomputable def find_loop (trip : Trip) :
    MatchDB → List Trip → Option (MatchDB × List TripMatch)
  | db, [] => some (db, [])
  | db, c :: rest =>
    let sd := calculate_match_score trip c 5
    if 30 ≤ sd.1 then
      match tripMatchCreate db (newMatchRow db trip c sd) with
      | none => none
      | some db2 =>
        match find_loop trip db2 rest with
        | none => none
        | some (db3, ms) => some (db3, newMatchRow db trip c sd :: ms)
    else find_loop trip db rest

/-- Stable insertion for Python's stable `sort(key=score, reverse=True)`:
an element moves past heads with strictly larger-or-equal score kept in
front, i.e. settles before the first head with smaller-or-equal score. -/
noncomputable def insertByScore (m : TripMatch) : List TripMatch → List TripMatch
  | [] => [m]
  | x :: xs => if x.score ≤ m.score then m :: x :: xs else x :: insertByScore m xs

/-- `matches.sort(key=lambda x: x.score, reverse=True)` (stable). -/
noncomputable def sortByScoreDesc : List TripMatch → List TripMatch
  | [] => []
  | x :: xs => insertByScore x (sortByScoreDesc xs)

/-- Step 1 of `find_trip_matches` (line 150): delete the existing
pending matches of `trip`. -/
def deletePending (db : MatchDB) (trip : Trip) : MatchDB :=
  { db with
    trip_matches := db.trip_matches.filter
      (fun m => !(decide (m.trip = trip.id) && decide (m.status = "pending"))) }

/-- matching.py `find_trip_matches` (lines 138-185): delete the pending
matches of `trip`, scan candidates, create qualifying matches, return
the top `limit` by score.  `none` models an uncaught IntegrityError. -/
noncomputable def find_trip_matches (db : MatchDB) (trip : Trip) (limit : ℕ) :
    Option (MatchDB × List TripMatch) :=
  let db1 := deletePending db trip
  let candidates := db1.trips.filter (fun c => isCandidate db1 trip c)
  match find_loop trip db1 candidates with
  | none => none
  | some (db2, ms) => some (db2, (sortByScoreDesc ms).take limit)

/-! ## ProximityMatcher (proximity_matcher.py) -/

/-- `ProximityMatcher.CLOSE_PROXIMITY_KM` (500m). -/
def CLOSE_PROXIMITY_KM : ℝ := 0.5

/-- `ProximityMatcher.NEARBY_THRESHOLD_KM` (2km). -/
def NEARBY_THRESHOLD_KM : ℝ := 2.0

/-- `ProximityMatcher.AUTO_EXPIRE_KM` (5km). -/
def AUTO_EXPIRE_KM : ℝ := 5.0

/-- user/models.py `Profile` (the location fields the services touch). -/
structure Profile where
  user : ℕ
  latitude : Option ℚ
  longitude : Option ℚ
  last_location_update : Option ℤ
  show_location : Bool
deriving DecidableEq

/-- The user table as read by the proximity service: `hasattr(user,
"profile")` is `profile u = some _`, and `get_full_name()` is
`full_name`. -/
structure UserDirectory where
  profile : ℕ → Option Profile
  full_name : ℕ → String

/-- Python `int(x)` on a float: truncation toward zero. -/
noncomputable def pyInt (x : ℝ) : ℤ := if x < 0 then ⌈x⌉ else ⌊x⌋

/-- One entry of the `close_matches` stats list (proximity_matcher.py
lines 103-109). -/
structure CloseMatch where
  match_id : ℕ
  other_user : String
  distance_meters : ℤ
deriving DecidableEq

/-- `ProximityMatcher._should_expire` (lines 120-141): never for a
non-pending match, otherwise exactly when the distance strictly exceeds
`AUTO_EXPIRE_KM`. -/
noncomputable def should_expire (m : TripMatch) (current_distance : ℝ) : Bool :=
  if m.status ≠ "pending" then false
  else if AUTO_EXPIRE_KM < current_distance then true
  else false

/-- Result of processing one selected match inside
`update_match_distances`: the updated row, whether the distance was
written, the optional close-proximity entry, whether the match expired. -/
structure StepResult where
  row : TripMatch
  did_update : Bool
  close : Option CloseMatch
  expired : Bool

/-- Lines 96-116 of proximity_matcher.py, for one selected match once its
live `distance` has been computed: persist the distance, emit a
close-proximity entry when `distance ≤ CLOSE_PROXIMITY_KM`, then
auto-expire (flag + status `rejected`) when `_should_expire` says so. -/
noncomputable def applyDistanceUpdate (now : ℤ) (otherName : String)
    (distance : ℝ) (m : TripMatch) : StepResult :=
  let m1 := { m with
    current_distance_km := some distance
    last_distance_update := some now }
  let close := if distance ≤ CLOSE_PROXIMITY_KM then
      some { match_id := m.id
             other_user := otherName
             distance_meters := pyInt (distance * 1000) }
    else none
  if should_expire m1 distance then
    ⟨{ m1 with is_proximity_expired := true, status := "rejected" }, true, close, true⟩
  else ⟨m1, true, close, false⟩

/-- The body of the `for match in pending_matches` loop (lines 79-116)
applied to an arbitrary row of the `TripMatch` table: rows not selected
by the queryset (not involving `user`, not pending, or already
proximity-expired) are untouched, rows whose other party has no usable
profile location are skipped, and the rest go through
`applyDistanceUpdate`. -/
noncomputable def processMatch (env : UserDirectory) (user : ℕ)
    (latitude longitude : ℝ) (now : ℤ) (m : TripMatch) : StepResult :=
  if (m.trip_user = user ∨ m.matched_user = user) ∧
      m.status = "pending" ∧ m.is_proximity_expired = false then
    let other_user := if m.trip_user = user then m.matched_user else m.trip_user
    match env.profile other_user with
    | none => ⟨m, false, none, false⟩
    | some p =>
      match p.latitude with
      | none => ⟨m, false, none, false⟩
      | some plat =>
        if plat = 0 then ⟨m, false, none, false⟩
        else
          let other_lat : ℝ := (plat : ℝ)
          let other_lng : ℝ := ((p.longitude.getD 0 : ℚ) : ℝ)
          let distance := calculate_distance_km latitude longitude other_lat other_lng
          applyDistanceUpdate now (env.full_name other_user) distance m
  else ⟨m, false, none, false⟩

/-- The stats dict returned by `update_match_distances`. -/
structure ProximityStats where
  updated_count : ℕ
  expired_count : ℕ
  close_matches : List CloseMatch

/-- `ProximityMatcher.update_match_distances` (lines 53-118) acting on
the `TripMatch` table `ms`: every row is processed by `processMatch`,
and the stats aggregate the per-row outcomes in table order. -/
noncomputable def update_match_distances (env : UserDirectory) (user : ℕ)
    (latitude longitude : ℝ) (now : ℤ) (ms : List TripMatch) :
    List TripMatch × ProximityStats :=
  let results := ms.map (processMatch env user latitude longitude now)
  (results.map StepResult.row,
   { updated_count := results.countP (fun r => r.did_update)
     expired_count := results.countP (fun r => r.expired)
     close_matches := results.filterMap (fun r => r.close) })

/-- A location update event (user plus reported coordinates). -/
structure LocEvent where
  user : ℕ
  latitude : ℝ
  longitude : ℝ
  now : ℤ

/-- The trajectory of a single `TripMatch` row under a sequence of
`update_match_distances` calls. -/
noncomputable def stepAll (env : UserDirectory) (events : List LocEvent)
    (m : TripMatch) : TripMatch :=
  events.foldl
    (fun acc e => (processMatch env e.user e.latitude e.longitude e.now acc).row) m

/-- The `TripMatch` table after a sequence of `update_match_distances`
calls. -/
noncomputable def runEvents (env : UserDirectory) (events : List LocEvent)
    (ms : List TripMatch) : List TripMatch :=
  events.foldl
    (fun acc e => (update_match_distances env e.user e.latitude e.longitude e.now acc).1)
    ms

/-! ## LocationRecorder (location_tracker.py lines 18-84) -/

/-- travel/models.py `LocationHistory`. -/
structure LocationHistory where
  user : ℕ
  trip : Option ℕ
  latitude : ℚ
  longitude : ℚ
  accuracy : Option ℚ
  altitude : Option ℚ
  speed : Option ℚ
  heading : Option ℚ
  is_background : Bool
  battery_level : Option ℤ
  recorded_at : ℤ
deriving DecidableEq

/-- `LocationTracker.record_location`: resolve the user's active trip
(`is_active` and dates spanning `today`, first row of the queryset),
insert the sample (trip nullable), then overwrite the profile's
last-known-location fields when the user has a profile.  The caller
resolves the `recorded_at=now` default.  No validation is performed. -/
def record_location (trips : List Trip) (profile : Option Profile) (user : ℕ)
    (latitude longitude : ℚ) (accuracy altitude speed heading : Option ℚ)
    (is_background : Bool) (battery_level : Option ℤ)
    (recorded_at : ℤ) (today : ℤ) : LocationHistory × Option Profile :=
  let active_trip := trips.find? (fun t =>
    decide (t.user = user) && t.is_active &&
    decide (t.start_date ≤ today) && decide (today ≤ t.end_date))
  let location : LocationHistory :=
    { user := user
      trip := active_trip.map Trip.id
      latitude := latitude
      longitude := longitude
      accuracy := accuracy
      altitude := altitude
      speed := speed
      heading := heading
      is_background := is_background
      battery_level := battery_level
      recorded_at := recorded_at }
  let profile2 := profile.map (fun p =>
    { p with
      latitude := some latitude
      longitude := some longitude
      last_location_update := some recorded_at })
  (location, profile2)

/-! ## HotspotDetector clustering (hotspot_detector.py lines 114-167) -/

/-- `HotspotDetector.MIN_USERS_FOR_HOTSPOT` default. -/
def MIN_USERS_FOR_HOTSPOT : ℕ := 2

/-- `HotspotDetector.CLUSTER_RADIUS_KM` default. -/
def CLUSTER_RADIUS_KM : ℝ := 0.1

/-- The distance the clustering code computes between two samples
(`_calculate_distance` on the float values of the Decimal columns). -/
noncomputable def sampleDistance (x y : LocationHistory) : ℝ :=
  hotspot_distance (x.latitude : ℝ) (x.longitude : ℝ) (y.latitude : ℝ) (y.longitude : ℝ)

/-- The inner `for other_location in locations` loop of
`_cluster_locations`: walk the full sample list, skipping samples whose
user is already processed, collecting (and marking processed) samples
within `CLUSTER_RADIUS_KM` of the scanned sample `l`.  The processed set
mutates during the walk, so it is threaded through. -/
noncomputable def collectNearby (l : LocationHistory) :
    List LocationHistory → List ℕ → List LocationHistory × List ℕ
  | [], processed => ([], processed)
  | o :: os, processed =>
    if o.user ∈ processed then collectNearby l os processed
    else if sampleDistance l o ≤ CLUSTER_RADIUS_KM then
      let r := collectNearby l os (o.user :: processed)
      (o :: r.1, r.2)
    else collectNearby l os processed

/-- One cluster dict built at hotspot_detector.py lines 156-165.
`place` is the external place catalog (`_match_place`), an abstract
collaborator. -/
structure Cluster where
  latitude : ℝ
  longitude : ℝ
  user_count : ℕ
  user_ids : List ℕ
  place_name : String
  place_id : Option ℕ

/-- The cluster record for a nearby-group (centroid, member count and
ids, external place match). -/
noncomputable def mkCluster (place : ℝ → ℝ → String × Option ℕ)
    (nearby : List LocationHistory) : Cluster :=
  let avg_lat := (nearby.map (fun xl => (xl.latitude : ℝ))).sum / (nearby.length : ℝ)
  let avg_lng := (nearby.map (fun xl => (xl.longitude : ℝ))).sum / (nearby.length : ℝ)
  let pm := place avg_lat avg_lng
  { latitude := avg_lat
    longitude := avg_lng
    user_count := nearby.length
    user_ids := nearby.map LocationHistory.user
    place_name := pm.1
    place_id := pm.2 }

/-- The outer loop of `_cluster_locations`: greedy single-pass
clustering.  `locs` stays the full list (the inner loop always rescans
it); the first argument structurally decreasing is the remaining
suffix. -/
noncomputable def clusterGo (place : ℝ → ℝ → String × Option ℕ)
    (locs : List LocationHistory) :
    List LocationHistory → List ℕ → List Cluster
  | [], _ => []
  | l :: rest, processed =>
    if l.user ∈ processed then clusterGo place locs rest processed
    else
      let r := collectNearby l locs processed
      if MIN_USERS_FOR_HOTSPOT ≤ r.1.length then
        mkCluster place r.1 :: clusterGo place locs rest r.2
      else clusterGo place locs rest r.2

/-- `HotspotDetector._cluster_locations` (lines 114-167). -/
noncomputable def cluster_locations (place : ℝ → ℝ → String × Option ℕ)
    (locs : List LocationHistory) : List Cluster :=
  clusterGo place locs locs []

/-! ## Helper lemmas about the scorer -/

theorem sin_sq_swap (x y : ℝ) :
    Real.sin ((x - y) / 2) ^ 2 = Real.sin ((y - x) / 2) ^ 2 := by
  rw [show (x - y) / 2 = -((y - x) / 2) by ring, Real.sin_neg, neg_sq]

theorem haversine_distance_comm (lat1 lon1 lat2 lon2 : ℝ) :
    haversine_distance lat1 lon1 lat2 lon2 = haversine_distance lat2 lon2 lat1 lon1 := by
  simp only [haversine_distance]
  rw [sin_sq_swap (radians lat2) (radians lat1),
    sin_sq_swap (radians lon2) (radians lon1),
    mul_comm (Real.cos (radians lat1)) (Real.cos (radians lat2))]

theorem calculate_date_overlap_comm (t1 t2 : Trip) :
    calculate_date_overlap t1 t2 = calculate_date_overlap t2 t1 := by
  simp only [calculate_date_overlap]
  rw [max_comm, min_comm]

theorem calculate_interest_match_snd_comm (i1 i2 : List String) :
    (calculate_interest_match i1 i2).2 = (calculate_interest_match i2 i1).2 := by
  simp only [calculate_interest_match]
  by_cases h1 : i1 = [] ∨ i2 = []
  · rw [if_pos h1, if_pos (Or.symm h1)]
  · rw [if_neg h1, if_neg (fun h => h1 (Or.symm h))]
    rw [Finset.union_comm (i2.toFinset) (i1.toFinset),
      Finset.inter_comm (i2.toFinset) (i1.toFinset)]

theorem distanceComponent_fst_comm (A B : Trip) (m : ℝ) :
    (distanceComponent A B m).1 = (distanceComponent B A m).1 := by
  simp only [distanceComponent]
  by_cases hc : decTruthy A.destination_lat ∧ decTruthy A.destination_lng ∧
      decTruthy B.destination_lat ∧ decTruthy B.destination_lng
  · rw [if_pos hc,
      if_pos (show decTruthy B.destination_lat = true ∧
        decTruthy B.destination_lng = true ∧
        decTruthy A.destination_lat = true ∧ decTruthy A.destination_lng = true
        from ⟨hc.2.2.1, hc.2.2.2, hc.1, hc.2.1⟩)]
    dsimp only
    rw [haversine_distance_comm (decFloat A.destination_lat)
      (decFloat A.destination_lng) (decFloat B.destination_lat)
      (decFloat B.destination_lng)]
  · rw [if_neg hc,
      if_neg (show ¬(decTruthy B.destination_lat = true ∧
        decTruthy B.destination_lng = true ∧
        decTruthy A.destination_lat = true ∧ decTruthy A.destination_lng = true)
        from fun h => hc ⟨h.2.2.1, h.2.2.2, h.1, h.2.1⟩)]
    dsimp only
    by_cases hs : A.destination.toLower = B.destination.toLower
    · rw [if_pos hs, if_pos hs.symm]
    · rw [if_neg hs, if_neg (fun h => hs h.symm)]

/-- C8: `calculate_match_score` is symmetric in its two trips: the score
returned for `(A, B)` equals the score returned for `(B, A)` (for any
`max_distance_km`, in particular the default 5 used by the match
finder). -/
theorem claim_C8_score_symmetric (A B : Trip) (m : ℝ) :
    (calculate_match_score A B m).1 = (calculate_match_score B A m).1 := by
  simp only [calculate_match_score]
  rw [calculate_date_overlap_comm B A, max_comm B.duration_days A.duration_days]
  by_cases h0 : calculate_date_overlap A B = 0
  · rw [if_pos h0, if_pos h0]
  · rw [if_neg h0, if_neg h0]
    dsimp only
    rw [distanceComponent_fst_comm B A m,
      calculate_interest_match_snd_comm B.interests A.interests]

/-! ## Membership lemmas for the sort used by `find_trip_matches` -/

theorem mem_insertByScore {x m : TripMatch} :
    ∀ {l : List TripMatch}, x ∈ insertByScore m l → x = m ∨ x ∈ l := by
  intro l
  induction l with
  | nil => intro h; simp only [insertByScore, List.mem_singleton] at h; exact Or.inl h
  | cons y ys ih =>
    intro h
    simp only [insertByScore] at h
    by_cases hle : y.score ≤ m.score
    · rw [if_pos hle] at h
      rcases List.mem_cons.1 h with h1 | h1
      · exact Or.inl h1
      · exact Or.inr h1
    · rw [if_neg hle] at h
      rcases List.mem_cons.1 h with h1 | h1
      · exact Or.inr (h1 ▸ List.mem_cons_self y ys)
      · rcases ih h1 with h2 | h2
        · exact Or.inl h2
        · exact Or.inr (List.mem_cons_of_mem y h2)

theorem mem_sortByScoreDesc {x : TripMatch} :
    ∀ {l : List TripMatch}, x ∈ sortByScoreDesc l → x ∈ l := by
  intro l
  induction l with
  | nil => intro h; simp [sortByScoreDesc] at h
  | cons y ys ih =>
    intro h
    simp only [sortByScoreDesc] at h
    rcases mem_insertByScore h with h1 | h1
    · exact h1 ▸ List.mem_cons_self y ys
    · exact List.mem_cons_of_mem y (ih h1)

/-! ## C1: zero date overlap short-circuits the scorer and blocks match
creation -/

theorem find_loop_mem_matched_trip {trip : Trip} :
    ∀ {cs : List Trip} {db db2 : MatchDB} {ms : List TripMatch},
      find_loop trip db cs = some (db2, ms) →
      ∀ mt ∈ ms, ∃ c ∈ cs, mt.matched_trip = some c ∧
        30 ≤ (calculate_match_score trip c 5).1 := by
  intro cs
  induction cs with
  | nil =>
    intro db db2 ms hf mt hmt
    simp only [find_loop, Option.some.injEq, Prod.mk.injEq] at hf
    rw [← hf.2] at hmt
    simp at hmt
  | cons c0 rest ih =>
    intro db db2 ms hf mt hmt
    simp only [find_loop] at hf
    by_cases hsc : 30 ≤ (calculate_match_score trip c0 5).1
    · rw [if_pos hsc] at hf
      cases h1 : tripMatchCreate db (newMatchRow db trip c0 (calculate_match_score trip c0 5)) with
      | none => rw [h1] at hf; simp at hf
      | some dbx =>
        rw [h1] at hf
        dsimp only at hf
        cases h2 : find_loop trip dbx rest with
        | none => rw [h2] at hf; simp at hf
        | some p =>
          obtain ⟨db3, ms3⟩ := p
          rw [h2] at hf
          dsimp only at hf
          simp only [Option.some.injEq, Prod.mk.injEq] at hf
          rw [← hf.2] at hmt
          rcases List.mem_cons.1 hmt with h3 | h3
          · refine ⟨c0, List.mem_cons_self c0 rest, ?_, hsc⟩
            rw [h3]; rfl
          · obtain ⟨c, hcmem, hceq⟩ := ih h2 mt h3
            exact ⟨c, List.mem_cons_of_mem c0 hcmem, hceq⟩
    · rw [if_neg hsc] at hf
      obtain ⟨c, hcmem, hceq⟩ := ih hf mt hmt
      exact ⟨c, List.mem_cons_of_mem c0 hcmem, hceq⟩

/-- C1: for a pair of trips with zero date-overlap days,
`calculate_match_score` short-circuits to exactly `(0, empty breakdown)`
before computing the distance and interest components, and
`find_trip_matches` never creates (nor returns) a `TripMatch` against
that candidate trip: every match produced by the creation loop points at
a candidate whose score reached the 30 threshold, which a zero-overlap
candidate cannot. -/
theorem claim_C1_zero_overlap (trip c : Trip)
    (h : calculate_date_overlap trip c = 0) :
    calculate_match_score trip c 5 = (0, emptyDetails) ∧
    (∀ db db2 : MatchDB, ∀ cs : List Trip, ∀ ms : List TripMatch,
      find_loop trip db cs = some (db2, ms) →
      ∀ mt ∈ ms, mt.matched_trip ≠ some c) ∧
    (∀ db db2 : MatchDB, ∀ limit : ℕ, ∀ ret : List TripMatch,
      find_trip_matches db trip limit = some (db2, ret) →
      ∀ mt ∈ ret, mt.matched_trip ≠ some c) := by
  have hscore : calculate_match_score trip c 5 = (0, emptyDetails) := by
    simp only [calculate_match_score]
    rw [if_pos h]
  have hloop : ∀ db db2 : MatchDB, ∀ cs : List Trip, ∀ ms : List TripMatch,
      find_loop trip db cs = some (db2, ms) →
      ∀ mt ∈ ms, mt.matched_trip ≠ some c := by
    intro db db2 cs ms hf mt hmt heq
    obtain ⟨c2, _, hc2, hge⟩ := find_loop_mem_matched_trip hf mt hmt
    rw [heq] at hc2
    have hcc : c2 = c := Option.some.inj hc2.symm
    rw [hcc, hscore] at hge
    norm_num at hge
  refine ⟨hscore, hloop, ?_⟩
  intro db db2 limit ret hf mt hmt
  simp only [find_trip_matches] at hf
  cases h2 : find_loop trip (deletePending db trip)
      ((deletePending db trip).trips.filter
        (fun cnd => isCandidate (deletePending db trip) trip cnd)) with
  | none => rw [h2] at hf; simp at hf
  | some p =>
    obtain ⟨db3, ms3⟩ := p
    rw [h2] at hf
    dsimp only at hf
    simp only [Option.some.injEq, Prod.mk.injEq] at hf
    have hret : mt ∈ sortByScoreDesc ms3 := by
      have hr : ret = (sortByScoreDesc ms3).take limit := hf.2.symm
      exact List.take_subset limit _ (hr ▸ hmt)
    exact hloop _ _ _ _ h2 mt (mem_sortByScoreDesc hret)

/-- A concrete trip used to exercise the theorems on concrete input. -/
def sampleTripA : Trip :=
  { id := 1
    user := 10
    origin := "Delhi"
    destination := "Paris"
    destination_lat := none
    destination_lng := none
    start_date := 0
    end_date := 5
    interests := ["food"]
    privacy := "public"
    is_active := true }

/-- A concrete trip whose dates do not overlap `sampleTripA`. -/
def sampleTripB : Trip :=
  { id := 2
    user := 11
    origin := "Goa"
    destination := "Paris"
    destination_lat := none
    destination_lng := none
    start_date := 10
    end_date := 12
    interests := ["food"]
    privacy := "public"
    is_active := true }

theorem claim_C1_zero_overlap_witness :
    calculate_date_overlap sampleTripA sampleTripB = 0 ∧
    (calculate_match_score sampleTripA sampleTripB 5 = (0, emptyDetails) ∧
    (∀ db db2 : MatchDB, ∀ cs : List Trip, ∀ ms : List TripMatch,
      find_loop sampleTripA db cs = some (db2, ms) →
      ∀ mt ∈ ms, mt.matched_trip ≠ some sampleTripB) ∧
    (∀ db db2 : MatchDB, ∀ limit : ℕ, ∀ ret : List TripMatch,
      find_trip_matches db sampleTripA limit = some (db2, ret) →
      ∀ mt ∈ ret, mt.matched_trip ≠ some sampleTripB)) :=
  ⟨by decide, claim_C1_zero_overlap sampleTripA sampleTripB (by decide)⟩

/-! ## C3: uniqueness and supersession of pending matches -/

theorem find_loop_spec {trip : Trip} :
    ∀ {cs : List Trip} {db db2 : MatchDB} {ms : List TripMatch},
      find_loop trip db cs = some (db2, ms) →
      db2.trip_matches = db.trip_matches ++ ms ∧
      db.next_match_id ≤ db2.next_match_id ∧
      (∀ mt ∈ ms, mt.trip = trip.id ∧ mt.status = "pending" ∧
        db.next_match_id ≤ mt.id) ∧
      (∀ mt ∈ ms, ∀ m1 ∈ db.trip_matches,
        ¬(m1.trip = mt.trip ∧ m1.matched_user = mt.matched_user)) ∧
      ms.Pairwise (fun m1 m2 => m1.matched_user ≠ m2.matched_user) := by
  intro cs
  induction cs with
  | nil =>
    intro db db2 ms hf
    simp only [find_loop, Option.some.injEq, Prod.mk.injEq] at hf
    obtain ⟨rfl, rfl⟩ := hf
    exact ⟨by simp, le_refl _, by simp, by simp, List.Pairwise.nil⟩
  | cons c0 rest ih =>
    intro db db2 ms hf
    simp only [find_loop] at hf
    by_cases hsc : 30 ≤ (calculate_match_score trip c0 5).1
    · rw [if_pos hsc] at hf
      cases h1 : tripMatchCreate db (newMatchRow db trip c0 (calculate_match_score trip c0 5)) with
      | none => rw [h1] at hf; simp at hf
      | some dbx =>
        rw [h1] at hf
        dsimp only at hf
        cases h2 : find_loop trip dbx rest with
        | none => rw [h2] at hf; simp at hf
        | some p =>
          obtain ⟨db3, ms3⟩ := p
          rw [h2] at hf
          dsimp only at hf
          simp only [Option.some.injEq, Prod.mk.injEq] at hf
          obtain ⟨hdb, hms⟩ := hf
          -- unpack the successful create
          have hcr := h1
          simp only [tripMatchCreate] at hcr
          by_cases hany : db.trip_matches.any (fun m2 =>
              decide (m2.trip = (newMatchRow db trip c0 (calculate_match_score trip c0 5)).trip) &&
              decide (m2.matched_user = (newMatchRow db trip c0 (calculate_match_score trip c0 5)).matched_user)) = true
          · rw [if_pos hany] at hcr; simp at hcr
          · rw [if_neg hany] at hcr
            simp only [Option.some.injEq] at hcr
            have hfree : ∀ m2 ∈ db.trip_matches,
                ¬(m2.trip = trip.id ∧ m2.matched_user = c0.user) := by
              intro m2 hm2 hcontra
              apply hany
              simp only [List.any_eq_true]
              refine ⟨m2, hm2, ?_⟩
              simp only [Bool.and_eq_true, decide_eq_true_eq]
              exact ⟨hcontra.1, hcontra.2⟩
            obtain ⟨hmx, hnx, hmem3, hfree3, hpw3⟩ := ih h2
            rw [← hcr] at hmx hnx hmem3 hfree3
            dsimp only at hmx hnx hmem3 hfree3
            subst hdb hms
            refine ⟨?_, ?_, ?_, ?_, ?_⟩
            · rw [hmx, List.append_assoc, List.singleton_append]
            · omega
            · intro mt hmt
              rcases List.mem_cons.1 hmt with h3 | h3
              · subst h3
                exact ⟨rfl, rfl, le_refl _⟩
              · obtain ⟨ha, hb, hc⟩ := hmem3 mt h3
                exact ⟨ha, hb, by omega⟩
            · intro mt hmt m1 hm1
              rcases List.mem_cons.1 hmt with h3 | h3
              · subst h3
                intro hcontra
                exact hfree m1 hm1 ⟨hcontra.1, hcontra.2⟩
              · exact hfree3 mt h3 m1 (List.mem_append_left _ hm1)
            · refine List.Pairwise.cons ?_ hpw3
              intro mt hmt heq
              have hrow_mem : (newMatchRow db trip c0 (calculate_match_score trip c0 5)) ∈
                  db.trip_matches ++ [newMatchRow db trip c0 (calculate_match_score trip c0 5)] :=
                List.mem_append_right _ (List.mem_singleton.2 rfl)
              have h4 := hfree3 mt hmt _ hrow_mem
              exact h4 ⟨(hmem3 mt hmt).1.symm, heq⟩
    · rw [if_neg hsc] at hf
      obtain ⟨hmx, hnx, hmem3, hfree3, hpw3⟩ := ih hf
      exact ⟨hmx, hnx, hmem3, hfree3, hpw3⟩

/-- C3: after a completed `find_trip_matches` call for `trip` (on a
database whose match ids are below the id counter), the pending matches
of `trip` are exactly the ones recomputed by the call: they extend the
table after the pending-delete step, filtering the new table for
pending matches of `trip` returns exactly the created list, the created
list has pairwise-distinct candidate users (at most one pending match
per `(trip, candidate user)` pair), and every previously existing
pending match of `trip` is gone. -/
theorem claim_C3_find_supersedes (db : MatchDB) (trip : Trip) (limit : ℕ)
    (db2 : MatchDB) (ret : List TripMatch)
    (hfresh : ∀ m ∈ db.trip_matches, m.id < db.next_match_id)
    (hf : find_trip_matches db trip limit = some (db2, ret)) :
    ∃ created : List TripMatch,
      db2.trip_matches = (deletePending db trip).trip_matches ++ created ∧
      db2.trip_matches.filter
        (fun m => decide (m.trip = trip.id) && decide (m.status = "pending")) = created ∧
      created.Pairwise (fun m1 m2 => m1.matched_user ≠ m2.matched_user) ∧
      (∀ m ∈ db.trip_matches, m.trip = trip.id → m.status = "pending" →
        m ∉ db2.trip_matches) := by
  simp only [find_trip_matches] at hf
  cases h2 : find_loop trip (deletePending db trip)
      ((deletePending db trip).trips.filter
        (fun cnd => isCandidate (deletePending db trip) trip cnd)) with
  | none => rw [h2] at hf; simp at hf
  | some p =>
    obtain ⟨db3, ms3⟩ := p
    rw [h2] at hf
    dsimp only at hf
    simp only [Option.some.injEq, Prod.mk.injEq] at hf
    obtain ⟨rfl, -⟩ := hf
    obtain ⟨hmx, hnx, hmem3, hfree3, hpw3⟩ := find_loop_spec h2
    refine ⟨ms3, hmx, ?_, hpw3, ?_⟩
    · rw [hmx, List.filter_append]
      have h5 : (deletePending db trip).trip_matches.filter
          (fun m => decide (m.trip = trip.id) && decide (m.status = "pending")) = [] := by
        rw [List.filter_eq_nil_iff]
        intro m hm hp
        simp only [deletePending, List.mem_filter] at hm
        have hneg := hm.2
        rw [Bool.not_eq_true'] at hneg
        rw [hp] at hneg
        exact Bool.noConfusion hneg
      have h6 : ms3.filter
          (fun m => decide (m.trip = trip.id) && decide (m.status = "pending")) = ms3 := by
        rw [List.filter_eq_self]
        intro m hm
        obtain ⟨ha, hb, -⟩ := hmem3 m hm
        simp [ha, hb]
      rw [h5, h6, List.nil_append]
    · intro m hm htrip hpend hmem
      rw [hmx] at hmem
      rcases List.mem_append.1 hmem with h7 | h7
      · simp only [deletePending, List.mem_filter] at h7
        have hneg := h7.2
        rw [Bool.not_eq_true'] at hneg
        have hpos : (decide (m.trip = trip.id) && decide (m.status = "pending")) = true := by
          simp [htrip, hpend]
        rw [hpos] at hneg
        exact Bool.noConfusion hneg
      · have hid := (hmem3 m h7).2.2
        have hlt := hfresh m hm
        simp only [deletePending] at hid
        omega

/-- An existing pending match of `sampleTripA` used to exercise the
supersession theorem. -/
noncomputable def sampleOldPending : TripMatch :=
  { id := 0
    trip := 1
    trip_user := 10
    matched_user := 11
    matched_trip := none
    score := 50
    common_interests := ∅
    distance_km := none
    current_distance_km := none
    last_distance_update := none
    is_proximity_expired := false
    status := "pending" }

/-- A one-trip database holding a stale pending match. -/
noncomputable def sampleDB : MatchDB :=
  { trips := [sampleTripA]
    trip_matches := [sampleOldPending]
    friends := fun _ => []
    next_match_id := 1 }

theorem claim_C3_find_supersedes_witness :
    (∀ m ∈ sampleDB.trip_matches, m.id < sampleDB.next_match_id) ∧
    find_trip_matches sampleDB sampleTripA 10 =
      some (deletePending sampleDB sampleTripA, []) ∧
    (∃ created : List TripMatch,
      (deletePending sampleDB sampleTripA).trip_matches =
        (deletePending sampleDB sampleTripA).trip_matches ++ created ∧
      (deletePending sampleDB sampleTripA).trip_matches.filter
        (fun m => decide (m.trip = sampleTripA.id) &&
          decide (m.status = "pending")) = created ∧
      created.Pairwise (fun m1 m2 => m1.matched_user ≠ m2.matched_user) ∧
      (∀ m ∈ sampleDB.trip_matches, m.trip = sampleTripA.id →
        m.status = "pending" →
        m ∉ (deletePending sampleDB sampleTripA).trip_matches)) := by
  have hfresh : ∀ m ∈ sampleDB.trip_matches, m.id < sampleDB.next_match_id := by
    intro m hm
    simp only [sampleDB, List.mem_singleton] at hm
    subst hm
    norm_num [sampleOldPending, sampleDB]
  have hf : find_trip_matches sampleDB sampleTripA 10 =
      some (deletePending sampleDB sampleTripA, []) := rfl
  exact ⟨hfresh, hf,
    claim_C3_find_supersedes sampleDB sampleTripA 10 _ _ hfresh hf⟩

/-! ## C2: the auto-expiry boundary is exclusive at 5.0 km -/

/-- C2: inside `update_match_distances`, a pending (not yet expired)
match whose freshly computed live distance is exactly `AUTO_EXPIRE_KM`
(5.0 km) is not expired — flag, status and the expired counter are
untouched — while any live distance strictly above 5.0 km on a pending
match sets `is_proximity_expired` and forces status `rejected`. -/
theorem claim_C2_expiry_boundary (m : TripMatch) (now : ℤ) (otherName : String)
    (h1 : m.status = "pending") (h2 : m.is_proximity_expired = false) :
    ((applyDistanceUpdate now otherName AUTO_EXPIRE_KM m).row.is_proximity_expired = false ∧
     (applyDistanceUpdate now otherName AUTO_EXPIRE_KM m).row.status = "pending" ∧
     (applyDistanceUpdate now otherName AUTO_EXPIRE_KM m).expired = false) ∧
    (∀ d : ℝ, AUTO_EXPIRE_KM < d →
      (applyDistanceUpdate now otherName d m).row.is_proximity_expired = true ∧
      (applyDistanceUpdate now otherName d m).row.status = "rejected" ∧
      (applyDistanceUpdate now otherName d m).expired = true) := by
  constructor
  · have hse : should_expire
        { m with current_distance_km := some AUTO_EXPIRE_KM,
                 last_distance_update := some now } AUTO_EXPIRE_KM = false := by
      simp [should_expire, h1]
    simp only [applyDistanceUpdate, hse]
    simp [h1, h2]
  · intro d hd
    have hse : should_expire
        { m with current_distance_km := some d,
                 last_distance_update := some now } d = true := by
      simp [should_expire, h1, hd]
    simp only [applyDistanceUpdate, hse]
    simp

theorem claim_C2_expiry_boundary_witness :
    (sampleOldPending.status = "pending" ∧
      sampleOldPending.is_proximity_expired = false ∧
      AUTO_EXPIRE_KM < (6 : ℝ)) ∧
    ((applyDistanceUpdate 0 "Asha" AUTO_EXPIRE_KM sampleOldPending).row.is_proximity_expired = false ∧
     (applyDistanceUpdate 0 "Asha" AUTO_EXPIRE_KM sampleOldPending).row.status = "pending" ∧
     (applyDistanceUpdate 0 "Asha" AUTO_EXPIRE_KM sampleOldPending).expired = false) ∧
    ((applyDistanceUpdate 0 "Asha" (6 : ℝ) sampleOldPending).row.is_proximity_expired = true ∧
     (applyDistanceUpdate 0 "Asha" (6 : ℝ) sampleOldPending).row.status = "rejected" ∧
     (applyDistanceUpdate 0 "Asha" (6 : ℝ) sampleOldPending).expired = true) := by
  have h6 : AUTO_EXPIRE_KM < (6 : ℝ) := by norm_num [AUTO_EXPIRE_KM]
  have h := claim_C2_expiry_boundary sampleOldPending 0 "Asha" rfl rfl
  exact ⟨⟨rfl, rfl, h6⟩, h.1, h.2 6 h6⟩

/-! ## C5: the close-proximity entry truncates (not rounds) the meters -/

/-- C5 counterexample: at a freshly computed live distance of
0.0007 km (0.7 m, within the 0.5 km close threshold) on a pending
match, the `close_matches` entry records `int(0.7) = 0` meters, whereas
0.7 m rounded to the nearest integer is 1 — so the entry does not hold
the distance in meters rounded to the nearest integer. -/
theorem claim_C5_close_entry_counterexample :
    (applyDistanceUpdate 0 "Asha" (7 / 10000 : ℝ) sampleOldPending).close =
      some { match_id := 0, other_user := "Asha", distance_meters := 0 } ∧
    round ((7 / 10000 : ℝ) * 1000) = (1 : ℤ) := by
  constructor
  · have hfloor : pyInt ((7 : ℝ) / 10) = 0 := by
      rw [pyInt, if_neg (by norm_num)]
      rw [Int.floor_eq_iff]; norm_num
    norm_num [applyDistanceUpdate, should_expire, sampleOldPending,
      AUTO_EXPIRE_KM, CLOSE_PROXIMITY_KM, hfloor]
  · rw [round_eq]
    rw [Int.floor_eq_iff]; norm_num

/-- C5 amended: for every pending match processed by
`update_match_distances` whose freshly computed live distance is at most
`CLOSE_PROXIMITY_KM` (0.5 km), an entry is appended to `close_matches`
containing the match id, the other party's display name, and the
distance in meters truncated to an integer (`int(distance * 1000)`,
i.e. rounded toward zero rather than to the nearest integer). -/
theorem claim_C5_close_entry (m : TripMatch) (now : ℤ) (name : String) (d : ℝ)
    (_h1 : m.status = "pending") (hd : d ≤ CLOSE_PROXIMITY_KM) :
    (applyDistanceUpdate now name d m).close =
      some { match_id := m.id, other_user := name,
             distance_meters := pyInt (d * 1000) } := by
  by_cases hse : should_expire
      { m with current_distance_km := some d, last_distance_update := some now } d = true
  · simp only [applyDistanceUpdate]
    rw [if_pos hse]
    dsimp only
    rw [if_pos hd]
  · simp only [applyDistanceUpdate]
    rw [if_neg hse]
    dsimp only
    rw [if_pos hd]

theorem claim_C5_close_entry_witness :
    (sampleOldPending.status = "pending" ∧ (2 / 5 : ℝ) ≤ CLOSE_PROXIMITY_KM) ∧
    (applyDistanceUpdate 0 "Asha" (2 / 5 : ℝ) sampleOldPending).close =
      some { match_id := 0, other_user := "Asha", distance_meters := 400 } := by
  have hd : (2 / 5 : ℝ) ≤ CLOSE_PROXIMITY_KM := by norm_num [CLOSE_PROXIMITY_KM]
  have h := claim_C5_close_entry sampleOldPending 0 "Asha" (2 / 5) rfl hd
  have hint : pyInt ((2 / 5 : ℝ) * 1000) = 400 := by
    rw [pyInt, if_neg (by norm_num)]
    rw [show ((2 / 5 : ℝ) * 1000) = ((400 : ℤ) : ℝ) by norm_num, Int.floor_intCast]
  rw [hint] at h
  exact ⟨⟨rfl, hd⟩, h⟩

/-! ## C6: a proximity-expired match is frozen forever -/

theorem processMatch_expired_fixed (env : UserDirectory) (u : ℕ) (lat lng : ℝ)
    (now : ℤ) (m : TripMatch) (h : m.is_proximity_expired = true) :
    processMatch env u lat lng now m = ⟨m, false, none, false⟩ := by
  simp [processMatch, h]

theorem runEvents_eq_map (env : UserDirectory) :
    ∀ (events : List LocEvent) (ms : List TripMatch),
      runEvents env events ms = ms.map (stepAll env events) := by
  intro events
  induction events with
  | nil =>
    intro ms
    simp only [runEvents, List.foldl_nil]
    exact (List.map_id'' (fun m => rfl) ms).symm
  | cons e es ih =>
    intro ms
    show runEvents env es
        ((update_match_distances env e.user e.latitude e.longitude e.now ms).1) =
      ms.map (stepAll env (e :: es))
    rw [ih]
    simp only [update_match_distances]
    rw [List.map_map, List.map_map]
    rfl

/-- C6: once a `TripMatch` has `is_proximity_expired = true` (hence
status `rejected`), any later sequence of `update_match_distances`
calls leaves the row exactly as it is — the queryset never selects it
again, so its status stays `rejected` and none of its fields (status,
distance, timestamps) are ever modified — and each call acts row-wise
on the table. -/
theorem claim_C6_expired_is_terminal (env : UserDirectory) (m : TripMatch)
    (hexp : m.is_proximity_expired = true) (hst : m.status = "rejected") :
    ∀ events : List LocEvent,
      stepAll env events m = m ∧
      (stepAll env events m).status = "rejected" ∧
      ∀ ms : List TripMatch,
        runEvents env events ms = ms.map (stepAll env events) := by
  have hfix : ∀ events : List LocEvent, stepAll env events m = m := by
    intro events
    induction events with
    | nil => rfl
    | cons e es ih =>
      show stepAll env es
          ((processMatch env e.user e.latitude e.longitude e.now m).row) = m
      rw [processMatch_expired_fixed env e.user e.latitude e.longitude e.now m hexp]
      exact ih
  intro events
  exact ⟨hfix events, by rw [hfix events, hst], runEvents_eq_map env events⟩

/-- A proximity-expired (hence rejected) match row. -/
noncomputable def sampleExpired : TripMatch :=
  { id := 3
    trip := 1
    trip_user := 10
    matched_user := 11
    matched_trip := none
    score := 50
    common_interests := ∅
    distance_km := none
    current_distance_km := some 7
    last_distance_update := some 0
    is_proximity_expired := true
    status := "rejected" }

/-- A user directory with no profiles. -/
def sampleDirectory : UserDirectory :=
  { profile := fun _ => none
    full_name := fun _ => "solo traveler" }

theorem claim_C6_expired_is_terminal_witness :
    (sampleExpired.is_proximity_expired = true ∧
      sampleExpired.status = "rejected") ∧
    (stepAll sampleDirectory [⟨10, 1, 2, 5⟩] sampleExpired = sampleExpired ∧
     (stepAll sampleDirectory [⟨10, 1, 2, 5⟩] sampleExpired).status = "rejected" ∧
     ∀ ms : List TripMatch,
       runEvents sampleDirectory [⟨10, 1, 2, 5⟩] ms =
         ms.map (stepAll sampleDirectory [⟨10, 1, 2, 5⟩])) :=
  ⟨⟨rfl, rfl⟩,
    claim_C6_expired_is_terminal sampleDirectory sampleExpired rfl rfl [⟨10, 1, 2, 5⟩]⟩

/-! ## C4 / C9: LocationRecorder behaviour -/

/-- A profile with no last-known location yet. -/
def sampleProfile : Profile :=
  { user := 7
    latitude := none
    longitude := none
    last_location_update := none
    show_location := true }

/-- C4 (code divergence): `record_location` performs no coordinate
validation whatsoever.  Called with latitude 91 (outside [-90, 90]) it
persists the `LocationHistory` sample and overwrites the profile's
last-known-location cache instead of rejecting the call before any
mutation.  (`UpdateLocation.mutate` adds no validation either; it only
wraps the call in a catch-all `except`.) -/
theorem claim_C4_out_of_range_is_persisted :
    record_location [] (some sampleProfile) 7 91 0 none none none none
        false none 100 100 =
      ({ user := 7
         trip := none
         latitude := 91
         longitude := 0
         accuracy := none
         altitude := none
         speed := none
         heading := none
         is_background := false
         battery_level := none
         recorded_at := 100 },
       some { sampleProfile with
         latitude := some 91
         longitude := some 0
         last_location_update := some 100 }) := rfl

/-- C9: for a user with no currently active trip, `record_location`
still creates a `LocationHistory` sample with `trip = none` carrying the
reported coordinates, and still overwrites the profile's denormalized
last-known-location fields (latitude, longitude, timestamp). -/
theorem claim_C9_no_active_trip (trips : List Trip) (profile : Profile)
    (user : ℕ) (latitude longitude : ℚ)
    (accuracy altitude speed heading : Option ℚ) (is_background : Bool)
    (battery_level : Option ℤ) (recorded_at today : ℤ)
    (hactive : ∀ t ∈ trips, ¬(t.user = user ∧ t.is_active = true ∧
      t.start_date ≤ today ∧ today ≤ t.end_date)) :
    (record_location trips (some profile) user latitude longitude accuracy
        altitude speed heading is_background battery_level recorded_at today).1 =
      { user := user
        trip := none
        latitude := latitude
        longitude := longitude
        accuracy := accuracy
        altitude := altitude
        speed := speed
        heading := heading
        is_background := is_background
        battery_level := battery_level
        recorded_at := recorded_at } ∧
    (record_location trips (some profile) user latitude longitude accuracy
        altitude speed heading is_background battery_level recorded_at today).2 =
      some { profile with
        latitude := some latitude
        longitude := some longitude
        last_location_update := some recorded_at } := by
  have hfind : trips.find? (fun t =>
      decide (t.user = user) && t.is_active &&
      decide (t.start_date ≤ today) && decide (today ≤ t.end_date)) = none := by
    rw [List.find?_eq_none]
    intro t ht hp
    have h := hactive t ht
    simp only [Bool.and_eq_true, decide_eq_true_eq] at hp
    exact h ⟨hp.1.1.1, hp.1.1.2, hp.1.2, hp.2⟩
  simp [record_location, hfind]

theorem claim_C9_no_active_trip_witness :
    (∀ t ∈ [sampleTripB], ¬(t.user = 7 ∧ t.is_active = true ∧
      t.start_date ≤ (100 : ℤ) ∧ (100 : ℤ) ≤ t.end_date)) ∧
    ((record_location [sampleTripB] (some sampleProfile) 7 5 6 none none none
        none false none 50 100).1 =
      { user := 7
        trip := none
        latitude := 5
        longitude := 6
        accuracy := none
        altitude := none
        speed := none
        heading := none
        is_background := false
        battery_level := none
        recorded_at := 50 } ∧
    (record_location [sampleTripB] (some sampleProfile) 7 5 6 none none none
        none false none 50 100).2 =
      some { sampleProfile with
        latitude := some 5
        longitude := some 6
        last_location_update := some 50 }) :=
  ⟨by decide, claim_C9_no_active_trip [sampleTripB] sampleProfile 7 5 6 none
    none none none false none 50 100 (by decide)⟩

/-! ## C10: the asin- and atan2-based Haversine implementations agree -/

theorem arcsin_sqrt_eq_atan2 (a : ℝ) (h0 : 0 ≤ a) (h1 : a ≤ 1) :
    Real.arcsin (Real.sqrt a) = atan2 (Real.sqrt a) (Real.sqrt (1 - a)) := by
  rcases lt_or_eq_of_le h1 with hlt | heq
  · have hx : Real.sqrt (1 - a) > 0 := Real.sqrt_pos.2 (by linarith)
    rw [atan2, if_pos hx]
    have hmem : Real.sqrt a ∈ Set.Ioo (-(1 : ℝ)) 1 := by
      constructor
      · have := Real.sqrt_nonneg a
        linarith
      · calc Real.sqrt a < Real.sqrt 1 := Real.sqrt_lt_sqrt h0 hlt
          _ = 1 := Real.sqrt_one
    rw [Real.arcsin_eq_arctan hmem, Real.sq_sqrt h0]
  · subst heq
    rw [Real.sqrt_one, Real.arcsin_one, atan2, sub_self, Real.sqrt_zero]
    rw [if_neg (lt_irrefl 0), if_neg (lt_irrefl 0), if_pos one_pos]

theorem radians_mem_Icc {lat : ℝ} (h : |lat| ≤ 90) :
    -(Real.pi / 2) ≤ radians lat ∧ radians lat ≤ Real.pi / 2 := by
  obtain ⟨hlo, hhi⟩ := abs_le.1 h
  have hpos : (0 : ℝ) ≤ Real.pi / 180 := by positivity
  constructor
  · have := mul_le_mul_of_nonneg_right hlo hpos
    calc -(Real.pi / 2) = -90 * (Real.pi / 180) := by ring
      _ ≤ lat * (Real.pi / 180) := this
      _ = radians lat := rfl
  · have := mul_le_mul_of_nonneg_right hhi hpos
    calc radians lat = lat * (Real.pi / 180) := rfl
      _ ≤ 90 * (Real.pi / 180) := this
      _ = Real.pi / 2 := by ring

theorem haversine_a_bounds (lat1 lat2 d : ℝ) (h1 : |lat1| ≤ 90) (h2 : |lat2| ≤ 90) :
    0 ≤ Real.sin ((radians lat2 - radians lat1) / 2) ^ 2 +
      Real.cos (radians lat1) * Real.cos (radians lat2) * Real.sin (d / 2) ^ 2 ∧
    Real.sin ((radians lat2 - radians lat1) / 2) ^ 2 +
      Real.cos (radians lat1) * Real.cos (radians lat2) * Real.sin (d / 2) ^ 2 ≤ 1 := by
  obtain ⟨hlo1, hhi1⟩ := radians_mem_Icc h1
  obtain ⟨hlo2, hhi2⟩ := radians_mem_Icc h2
  have hc1 : 0 ≤ Real.cos (radians lat1) := Real.cos_nonneg_of_mem_Icc ⟨hlo1, hhi1⟩
  have hc2 : 0 ≤ Real.cos (radians lat2) := Real.cos_nonneg_of_mem_Icc ⟨hlo2, hhi2⟩
  have hcc : 0 ≤ Real.cos (radians lat1) * Real.cos (radians lat2) :=
    mul_nonneg hc1 hc2
  have ht0 : 0 ≤ Real.sin (d / 2) ^ 2 := sq_nonneg _
  have ht1 : Real.sin (d / 2) ^ 2 ≤ 1 := Real.sin_sq_le_one _
  constructor
  · have := sq_nonneg (Real.sin ((radians lat2 - radians lat1) / 2))
    nlinarith [mul_nonneg hcc ht0]
  · have hhalf : Real.sin ((radians lat2 - radians lat1) / 2) ^ 2 =
        1 / 2 - Real.cos (2 * ((radians lat2 - radians lat1) / 2)) / 2 :=
      Real.sin_sq_eq_half_sub _
    rw [show 2 * ((radians lat2 - radians lat1) / 2) = radians lat2 - radians lat1
      by ring] at hhalf
    rw [hhalf, Real.cos_sub]
    have hca : Real.cos (radians lat1) * Real.cos (radians lat2) -
        Real.sin (radians lat1) * Real.sin (radians lat2) ≤ 1 := by
      have := Real.cos_le_one (radians lat1 + radians lat2)
      rw [Real.cos_add] at this
      exact this
    nlinarith [mul_le_of_le_one_right hcc ht1]

/-- C10: the two Haversine implementations — the asin-based
`haversine_distance` in matching.py and the atan2-based
`calculate_distance_km` in proximity_matcher.py — return the same
distance in kilometers for every pair of coordinates with latitudes in
[-90, 90] (there the shared intermediate value `a` lies in [0, 1], and
`2·asin(√a) = 2·atan2(√a, √(1−a))`). -/
theorem claim_C10_haversine_equiv (lat1 lon1 lat2 lon2 : ℝ)
    (h1 : |lat1| ≤ 90) (h2 : |lat2| ≤ 90) :
    haversine_distance lat1 lon1 lat2 lon2 =
      calculate_distance_km lat1 lon1 lat2 lon2 := by
  simp only [haversine_distance, calculate_distance_km]
  have hrad : ∀ x y : ℝ, radians (x - y) = radians x - radians y := by
    intro x y
    simp only [radians]
    ring
  rw [hrad lat2 lat1, hrad lon2 lon1]
  obtain ⟨hA0, hA1⟩ := haversine_a_bounds lat1 lat2
    (radians lon2 - radians lon1) h1 h2
  rw [← arcsin_sqrt_eq_atan2 _ hA0 hA1]
  ring

theorem claim_C10_haversine_equiv_witness :
    (|(10 : ℝ)| ≤ 90 ∧ |(-20 : ℝ)| ≤ 90) ∧
    haversine_distance 10 30 (-20) 40 = calculate_distance_km 10 30 (-20) 40 :=
  ⟨⟨by norm_num, by norm_num⟩,
    claim_C10_haversine_equiv 10 30 (-20) 40 (by norm_num) (by norm_num)⟩

/-! ## C7: greedy clustering on a 3-close + 1-far configuration -/

theorem hotspot_distance_self (lat lng : ℝ) :
    hotspot_distance lat lng lat lng = 0 := by
  simp [hotspot_distance, radians]

theorem hotspot_distance_comm (lat1 lng1 lat2 lng2 : ℝ) :
    hotspot_distance lat1 lng1 lat2 lng2 = hotspot_distance lat2 lng2 lat1 lng1 := by
  simp only [hotspot_distance]
  have hneg : ∀ x y : ℝ, radians (x - y) = -(radians (y - x)) := by
    intro x y
    simp only [radians]
    ring
  have hsin : ∀ x y : ℝ,
      Real.sin (radians (x - y) / 2) ^ 2 = Real.sin (radians (y - x) / 2) ^ 2 := by
    intro x y
    rw [hneg x y, neg_div, Real.sin_neg, neg_sq]
  rw [hsin lat2 lat1, hsin lng2 lng1,
    mul_comm (Real.cos (radians lat1)) (Real.cos (radians lat2))]

theorem sampleDistance_self (x : LocationHistory) : sampleDistance x x = 0 :=
  hotspot_distance_self _ _

theorem sampleDistance_comm (x y : LocationHistory) :
    sampleDistance x y = sampleDistance y x :=
  hotspot_distance_comm _ _ _ _

/-- The C7 input configuration: four users' most-recent samples, three
of them (`a`, `b`, `c`) pairwise within 50 m as measured by the
clustering distance, the fourth (`d`) more than 200 m from each. -/
structure C7Config (a b c d : LocationHistory) : Prop where
  hab : a.user ≠ b.user
  hac : a.user ≠ c.user
  had : a.user ≠ d.user
  hbc : b.user ≠ c.user
  hbd : b.user ≠ d.user
  hcd : c.user ≠ d.user
  dab : sampleDistance a b ≤ 0.05
  dac : sampleDistance a c ≤ 0.05
  dbc : sampleDistance b c ≤ 0.05
  dda : 0.2 < sampleDistance d a
  ddb : 0.2 < sampleDistance d b
  ddc : 0.2 < sampleDistance d c

theorem C7Config.close_gg {a b c d : LocationHistory} (h : C7Config a b c d) :
    ∀ g x : LocationHistory, (g = a ∨ g = b ∨ g = c) → (x = a ∨ x = b ∨ x = c) →
      sampleDistance g x ≤ CLUSTER_RADIUS_KM := by
  have hr : CLUSTER_RADIUS_KM = 0.1 := rfl
  have hs : ∀ x : LocationHistory, sampleDistance x x ≤ CLUSTER_RADIUS_KM := by
    intro x
    rw [sampleDistance_self, hr]
    norm_num
  intro g x hg hx
  rcases hg with rfl | rfl | rfl <;> rcases hx with rfl | rfl | rfl
  · exact hs _
  · rw [hr]; linarith [h.dab]
  · rw [hr]; linarith [h.dac]
  · rw [hr, sampleDistance_comm]; linarith [h.dab]
  · exact hs _
  · rw [hr]; linarith [h.dbc]
  · rw [hr, sampleDistance_comm]; linarith [h.dac]
  · rw [hr, sampleDistance_comm]; linarith [h.dbc]
  · exact hs _

theorem C7Config.far_gd {a b c d : LocationHistory} (h : C7Config a b c d) :
    ∀ g : LocationHistory, (g = a ∨ g = b ∨ g = c) →
      ¬(sampleDistance g d ≤ CLUSTER_RADIUS_KM) := by
  have hr : CLUSTER_RADIUS_KM = 0.1 := rfl
  intro g hg
  rcases hg with rfl | rfl | rfl <;> rw [hr, sampleDistance_comm, not_le]
  · linarith [h.dda]
  · linarith [h.ddb]
  · linarith [h.ddc]

theorem C7Config.far_dg {a b c d : LocationHistory} (h : C7Config a b c d) :
    ∀ x : LocationHistory, (x = a ∨ x = b ∨ x = c) →
      ¬(sampleDistance d x ≤ CLUSTER_RADIUS_KM) := by
  have hr : CLUSTER_RADIUS_KM = 0.1 := rfl
  intro x hx
  rcases hx with rfl | rfl | rfl <;> rw [hr, not_le]
  · linarith [h.dda]
  · linarith [h.ddb]
  · linarith [h.ddc]

theorem collectNearby_spec (l : LocationHistory) :
    ∀ (os : List LocationHistory) (p : List ℕ),
      os.Pairwise (fun x y => x.user ≠ y.user) →
      (collectNearby l os p).1 =
        os.filter (fun o => decide (o.user ∉ p) &&
          decide (sampleDistance l o ≤ CLUSTER_RADIUS_KM)) ∧
      ∀ u : ℕ, u ∈ (collectNearby l os p).2 ↔
        u ∈ p ∨ ∃ o ∈ (collectNearby l os p).1, o.user = u := by
  intro os
  induction os with
  | nil =>
    intro p _
    refine ⟨rfl, fun u => ?_⟩
    simp [collectNearby]
  | cons o os ih =>
    intro p hpw
    have hpw2 : os.Pairwise (fun x y => x.user ≠ y.user) := hpw.of_cons
    have hou : ∀ x ∈ os, o.user ≠ x.user := (List.pairwise_cons.1 hpw).1
    by_cases hmem : o.user ∈ p
    · have hstep : collectNearby l (o :: os) p = collectNearby l os p := by
        simp only [collectNearby]
        rw [if_pos hmem]
      rw [hstep]
      obtain ⟨hfil, hproc⟩ := ih p hpw2
      refine ⟨?_, hproc⟩
      rw [hfil, List.filter_cons_of_neg]
      simp [hmem]
    · by_cases hdist : sampleDistance l o ≤ CLUSTER_RADIUS_KM
      · have hstep : collectNearby l (o :: os) p =
            (o :: (collectNearby l os (o.user :: p)).1,
             (collectNearby l os (o.user :: p)).2) := by
          simp only [collectNearby]
          rw [if_neg hmem, if_pos hdist]
        obtain ⟨hfil, hproc⟩ := ih (o.user :: p) hpw2
        constructor
        · rw [hstep]
          dsimp only
          rw [hfil, List.filter_cons_of_pos]
          · congr 1
            apply List.filter_congr
            intro x hx
            have hne : x.user ≠ o.user := Ne.symm (hou x hx)
            simp [List.mem_cons, hne]
          · simp [hmem, hdist]
        · intro u
          rw [hstep]
          dsimp only
          rw [hproc u]
          constructor
          · rintro (h1 | ⟨o1, ho1, hq⟩)
            · rcases List.mem_cons.1 h1 with h2 | h2
              · exact Or.inr ⟨o, List.mem_cons_self o _, h2.symm⟩
              · exact Or.inl h2
            · exact Or.inr ⟨o1, List.mem_cons_of_mem o ho1, hq⟩
          · rintro (h1 | ⟨o1, ho1, hq⟩)
            · exact Or.inl (List.mem_cons_of_mem o.user h1)
            · rcases List.mem_cons.1 ho1 with h2 | h2
              · refine Or.inl ?_
                rw [← hq, h2]
                exact List.mem_cons_self o.user p
              · exact Or.inr ⟨o1, h2, hq⟩
      · have hstep : collectNearby l (o :: os) p = collectNearby l os p := by
          simp only [collectNearby]
          rw [if_neg hmem, if_neg hdist]
        rw [hstep]
        obtain ⟨hfil, hproc⟩ := ih p hpw2
        refine ⟨?_, hproc⟩
        rw [hfil, List.filter_cons_of_neg]
        simp [hdist]

theorem filterG_eval {a b c d : LocationHistory} (h : C7Config a b c d)
    (g : LocationHistory) (hg : g = a ∨ g = b ∨ g = c) (p : List ℕ)
    (hpa : a.user ∉ p) (hpb : b.user ∉ p) (hpc : c.user ∉ p) :
    [a, b, c, d].filter (fun o => decide (o.user ∉ p) &&
      decide (sampleDistance g o ≤ CLUSTER_RADIUS_KM)) = [a, b, c] := by
  have ha := h.close_gg g a hg (Or.inl rfl)
  have hb := h.close_gg g b hg (Or.inr (Or.inl rfl))
  have hc := h.close_gg g c hg (Or.inr (Or.inr rfl))
  have hd := h.far_gd g hg
  simp [List.filter_cons, List.filter_nil, hpa, hpb, hpc, ha, hb, hc, hd]

theorem filterD_eval {a b c d : LocationHistory} (h : C7Config a b c d)
    (p : List ℕ) (hpd : d.user ∉ p) :
    [a, b, c, d].filter (fun o => decide (o.user ∉ p) &&
      decide (sampleDistance d o ≤ CLUSTER_RADIUS_KM)) = [d] := by
  have ha := h.far_dg a (Or.inl rfl)
  have hb := h.far_dg b (Or.inr (Or.inl rfl))
  have hc := h.far_dg c (Or.inr (Or.inr rfl))
  have hdd : sampleDistance d d ≤ CLUSTER_RADIUS_KM := by
    rw [sampleDistance_self]
    norm_num [CLUSTER_RADIUS_KM]
  simp [List.filter_cons, List.filter_nil, ha, hb, hc, hdd, hpd]

theorem d_scan {a b c d : LocationHistory} (h : C7Config a b c d)
    {locs : List LocationHistory} (hperm : locs.Perm [a, b, c, d])
    (hpwlocs : locs.Pairwise (fun x y => x.user ≠ y.user))
    (p : List ℕ) (hpd : d.user ∉ p) :
    (collectNearby d locs p).1.length = 1 ∧
    (∀ u : ℕ, u ∈ (collectNearby d locs p).2 ↔ u ∈ p ∨ u = d.user) := by
  obtain ⟨hfil, hproc⟩ := collectNearby_spec d locs p hpwlocs
  have hp2 : (collectNearby d locs p).1.Perm [d] := by
    rw [hfil]
    have h2 := hperm.filter (fun o => decide (o.user ∉ p) &&
      decide (sampleDistance d o ≤ CLUSTER_RADIUS_KM))
    rw [filterD_eval h p hpd] at h2
    exact h2
  constructor
  · rw [hp2.length_eq]
    rfl
  · intro u
    rw [hproc u]
    constructor
    · rintro (h1 | ⟨o1, ho1, hq⟩)
      · exact Or.inl h1
      · have h3 : o1 ∈ [d] := hp2.mem_iff.1 ho1
        rw [List.mem_singleton] at h3
        subst h3
        exact Or.inr hq.symm
    · rintro (h1 | h1)
      · exact Or.inl h1
      · exact Or.inr ⟨d, hp2.mem_iff.2 (List.mem_singleton.2 rfl), h1.symm⟩

theorem g_scan {a b c d : LocationHistory} (h : C7Config a b c d)
    {locs : List LocationHistory} (hperm : locs.Perm [a, b, c, d])
    (hpwlocs : locs.Pairwise (fun x y => x.user ≠ y.user))
    (g : LocationHistory) (hg : g = a ∨ g = b ∨ g = c) (p : List ℕ)
    (hpa : a.user ∉ p) (hpb : b.user ∉ p) (hpc : c.user ∉ p) :
    (collectNearby g locs p).1.Perm [a, b, c] ∧
    (∀ u : ℕ, u ∈ (collectNearby g locs p).2 ↔
      u ∈ p ∨ u = a.user ∨ u = b.user ∨ u = c.user) := by
  obtain ⟨hfil, hproc⟩ := collectNearby_spec g locs p hpwlocs
  have hp2 : (collectNearby g locs p).1.Perm [a, b, c] := by
    rw [hfil]
    have h2 := hperm.filter (fun o => decide (o.user ∉ p) &&
      decide (sampleDistance g o ≤ CLUSTER_RADIUS_KM))
    rw [filterG_eval h g hg p hpa hpb hpc] at h2
    exact h2
  refine ⟨hp2, fun u => ?_⟩
  rw [hproc u]
  constructor
  · rintro (h1 | ⟨o1, ho1, hq⟩)
    · exact Or.inl h1
    · have h3 : o1 ∈ [a, b, c] := hp2.mem_iff.1 ho1
      simp only [List.mem_cons, List.not_mem_nil, or_false] at h3
      rcases h3 with rfl | rfl | rfl
      · exact Or.inr (Or.inl hq.symm)
      · exact Or.inr (Or.inr (Or.inl hq.symm))
      · exact Or.inr (Or.inr (Or.inr hq.symm))
  · rintro (h1 | h1 | h1 | h1)
    · exact Or.inl h1
    · exact Or.inr ⟨a, hp2.mem_iff.2 (by simp), h1.symm⟩
    · exact Or.inr ⟨b, hp2.mem_iff.2 (by simp), h1.symm⟩
    · exact Or.inr ⟨c, hp2.mem_iff.2 (by simp), h1.symm⟩

theorem clusterGo_after (mp : ℝ → ℝ → String × Option ℕ)
    {a b c d : LocationHistory} (h : C7Config a b c d)
    {locs : List LocationHistory} (hperm : locs.Perm [a, b, c, d])
    (hpwlocs : locs.Pairwise (fun x y => x.user ≠ y.user)) :
    ∀ (rest : List LocationHistory) (p : List ℕ),
      (∀ o ∈ rest, o = a ∨ o = b ∨ o = c ∨ o = d) →
      a.user ∈ p → b.user ∈ p → c.user ∈ p →
      clusterGo mp locs rest p = [] := by
  intro rest
  induction rest with
  | nil => intro p _ _ _ _; rfl
  | cons o rest ih =>
    intro p hmem hpa hpb hpc
    have hmemrest : ∀ x ∈ rest, x = a ∨ x = b ∨ x = c ∨ x = d :=
      fun x hx => hmem x (List.mem_cons_of_mem o hx)
    rcases hmem o (List.mem_cons_self o rest) with rfl | rfl | rfl | rfl
    · simp only [clusterGo]
      rw [if_pos hpa]
      exact ih p hmemrest hpa hpb hpc
    · simp only [clusterGo]
      rw [if_pos hpb]
      exact ih p hmemrest hpa hpb hpc
    · simp only [clusterGo]
      rw [if_pos hpc]
      exact ih p hmemrest hpa hpb hpc
    · by_cases hpd : o.user ∈ p
      · simp only [clusterGo]
        rw [if_pos hpd]
        exact ih p hmemrest hpa hpb hpc
      · obtain ⟨hlen, hproc⟩ := d_scan h hperm hpwlocs p hpd
        simp only [clusterGo]
        rw [if_neg hpd,
          if_neg (by rw [hlen]; norm_num [MIN_USERS_FOR_HOTSPOT])]
        exact ih _ hmemrest ((hproc a.user).2 (Or.inl hpa))
          ((hproc b.user).2 (Or.inl hpb)) ((hproc c.user).2 (Or.inl hpc))

theorem clusterGo_before (mp : ℝ → ℝ → String × Option ℕ)
    {a b c d : LocationHistory} (h : C7Config a b c d)
    {locs : List LocationHistory} (hperm : locs.Perm [a, b, c, d])
    (hpwlocs : locs.Pairwise (fun x y => x.user ≠ y.user)) :
    ∀ (rest : List LocationHistory) (p : List ℕ),
      (∀ o ∈ rest, o = a ∨ o = b ∨ o = c ∨ o = d) →
      a.user ∉ p → b.user ∉ p → c.user ∉ p →
      (a ∈ rest ∨ b ∈ rest ∨ c ∈ rest) →
      ∃ nearby : List LocationHistory, nearby.Perm [a, b, c] ∧
        clusterGo mp locs rest p = [mkCluster mp nearby] := by
  intro rest
  induction rest with
  | nil =>
    intro p _ _ _ _ hsome
    rcases hsome with h1 | h1 | h1 <;> simp at h1
  | cons o rest ih =>
    intro p hmem hpa hpb hpc hsome
    have hmemrest : ∀ x ∈ rest, x = a ∨ x = b ∨ x = c ∨ x = d :=
      fun x hx => hmem x (List.mem_cons_of_mem o hx)
    have hGhead : ∀ g : LocationHistory, (g = a ∨ g = b ∨ g = c) → g.user ∉ p →
        ∃ nearby : List LocationHistory, nearby.Perm [a, b, c] ∧
          clusterGo mp locs (g :: rest) p = [mkCluster mp nearby] := by
      intro g hg hgp
      obtain ⟨hnb, hproc⟩ := g_scan h hperm hpwlocs g hg p hpa hpb hpc
      refine ⟨(collectNearby g locs p).1, hnb, ?_⟩
      simp only [clusterGo]
      rw [if_neg hgp,
        if_pos (by rw [hnb.length_eq]; norm_num [MIN_USERS_FOR_HOTSPOT])]
      rw [clusterGo_after mp h hperm hpwlocs rest _ hmemrest
        ((hproc a.user).2 (Or.inr (Or.inl rfl)))
        ((hproc b.user).2 (Or.inr (Or.inr (Or.inl rfl))))
        ((hproc c.user).2 (Or.inr (Or.inr (Or.inr rfl))))]
    rcases hmem o (List.mem_cons_self o rest) with rfl | rfl | rfl | rfl
    · exact hGhead o (Or.inl rfl) hpa
    · exact hGhead o (Or.inr (Or.inl rfl)) hpb
    · exact hGhead o (Or.inr (Or.inr rfl)) hpc
    · have hsome2 : a ∈ rest ∨ b ∈ rest ∨ c ∈ rest := by
        rcases hsome with h1 | h1 | h1
        · rcases List.mem_cons.1 h1 with h2 | h2
          · exact absurd (congrArg LocationHistory.user h2) h.had
          · exact Or.inl h2
        · rcases List.mem_cons.1 h1 with h2 | h2
          · exact absurd (congrArg LocationHistory.user h2) h.hbd
          · exact Or.inr (Or.inl h2)
        · rcases List.mem_cons.1 h1 with h2 | h2
          · exact absurd (congrArg LocationHistory.user h2) h.hcd
          · exact Or.inr (Or.inr h2)
      by_cases hpd : o.user ∈ p
      · simp only [clusterGo]
        rw [if_pos hpd]
        exact ih p hmemrest hpa hpb hpc hsome2
      · obtain ⟨hlen, hproc⟩ := d_scan h hperm hpwlocs p hpd
        simp only [clusterGo]
        rw [if_neg hpd,
          if_neg (by rw [hlen]; norm_num [MIN_USERS_FOR_HOTSPOT])]
        refine ih _ hmemrest ?_ ?_ ?_ hsome2
        · intro h1
          rcases (hproc a.user).1 h1 with h2 | h2
          · exact hpa h2
          · exact h.had h2
        · intro h1
          rcases (hproc b.user).1 h1 with h2 | h2
          · exact hpb h2
          · exact h.hbd h2
        · intro h1
          rcases (hproc c.user).1 h1 with h2 | h2
          · exact hpc h2
          · exact h.hcd h2

/-- C7: on four users' most-recent samples presented in any order, where
three users are pairwise within 50 m of each other (as measured by the
clustering distance) and the fourth is more than 200 m from each of the
three, `_cluster_locations` (cluster radius 0.1 km, minimum 2 users)
produces exactly one cluster; it has `user_count` 3, its member list is
exactly the three close users, and the fourth user belongs to no
cluster. -/
theorem claim_C7_three_close_one_far (mp : ℝ → ℝ → String × Option ℕ)
    (a b c d : LocationHistory) (locs : List LocationHistory)
    (h : C7Config a b c d) (hperm : locs.Perm [a, b, c, d]) :
    ∃ cl : Cluster, cluster_locations mp locs = [cl] ∧
      cl.user_count = 3 ∧
      cl.user_ids.Perm [a.user, b.user, c.user] ∧
      d.user ∉ cl.user_ids := by
  have hpw4 : ([a, b, c, d] : List LocationHistory).Pairwise
      (fun x y => x.user ≠ y.user) := by
    refine List.Pairwise.cons ?_ (List.Pairwise.cons ?_
      (List.Pairwise.cons ?_ (List.Pairwise.cons ?_ List.Pairwise.nil)))
    · intro x hx
      rcases List.mem_cons.1 hx with rfl | hx
      · exact h.hab
      rcases List.mem_cons.1 hx with rfl | hx
      · exact h.hac
      rcases List.mem_cons.1 hx with rfl | hx
      · exact h.had
      · simp at hx
    · intro x hx
      rcases List.mem_cons.1 hx with rfl | hx
      · exact h.hbc
      rcases List.mem_cons.1 hx with rfl | hx
      · exact h.hbd
      · simp at hx
    · intro x hx
      rcases List.mem_cons.1 hx with rfl | hx
      · exact h.hcd
      · simp at hx
    · intro x hx
      simp at hx
  have hpwlocs : locs.Pairwise (fun x y => x.user ≠ y.user) :=
    (hperm.pairwise_iff (fun hxy => hxy.symm)).2 hpw4
  have hmem : ∀ o ∈ locs, o = a ∨ o = b ∨ o = c ∨ o = d := by
    intro o ho
    have h1 : o ∈ [a, b, c, d] := hperm.mem_iff.1 ho
    simp only [List.mem_cons, List.not_mem_nil, or_false] at h1
    exact h1
  have hsome : a ∈ locs ∨ b ∈ locs ∨ c ∈ locs :=
    Or.inl (hperm.mem_iff.2 (by simp))
  obtain ⟨nearby, hnb, heq⟩ := clusterGo_before mp h hperm hpwlocs locs []
    hmem (by simp) (by simp) (by simp) hsome
  refine ⟨mkCluster mp nearby, ?_, ?_, ?_, ?_⟩
  · simp only [cluster_locations]
    exact heq
  · show nearby.length = 3
    rw [hnb.length_eq]
    rfl
  · exact hnb.map LocationHistory.user
  · intro hd
    have h3 : d.user ∈ [a.user, b.user, c.user] :=
      (hnb.map LocationHistory.user).mem_iff.1 hd
    simp only [List.mem_cons, List.not_mem_nil, or_false] at h3
    rcases h3 with h4 | h4 | h4
    · exact h.had h4.symm
    · exact h.hbd h4.symm
    · exact h.hcd h4.symm

/-- A minimal location sample at the given coordinates. -/
def locSample (u : ℕ) (lat lng : ℚ) : LocationHistory :=
  { user := u
    trip := none
    latitude := lat
    longitude := lng
    accuracy := none
    altitude := none
    speed := none
    heading := none
    is_background := false
    battery_level := none
    recorded_at := 0 }

/-- Three co-located users at the origin and one at the pole. -/
def locA : LocationHistory := locSample 1 0 0

/-- Second user at the origin. -/
def locB : LocationHistory := locSample 2 0 0

/-- Third user at the origin. -/
def locC : LocationHistory := locSample 3 0 0

/-- Fourth user at latitude 90. -/
def locD : LocationHistory := locSample 4 90 0

theorem hotspot_distance_pole :
    hotspot_distance 90 0 0 0 = 6371 * (Real.pi / 2) := by
  simp only [hotspot_distance, radians]
  rw [show ((0:ℝ) - 90) * (Real.pi / 180) / 2 = -(Real.pi / 4) by ring,
    show ((0:ℝ) - 0) * (Real.pi / 180) / 2 = 0 by ring,
    Real.sin_neg, Real.sin_zero, neg_sq, Real.sin_pi_div_four]
  rw [show (Real.sqrt 2 / 2) ^ 2 +
      Real.cos (90 * (Real.pi / 180)) * Real.cos (0 * (Real.pi / 180)) * (0:ℝ) ^ 2 =
      (Real.sqrt 2 / 2) ^ 2 by ring]
  rw [Real.sqrt_sq (by positivity),
    ← Real.sin_pi_div_four,
    Real.arcsin_sin (by linarith [Real.pi_pos]) (by linarith [Real.pi_pos])]
  ring

theorem claim_C7_three_close_one_far_witness :
    C7Config locA locB locC locD ∧
    (∃ cl : Cluster,
      cluster_locations (fun _ _ => ("", none)) [locA, locB, locC, locD] = [cl] ∧
      cl.user_count = 3 ∧
      cl.user_ids.Perm [locA.user, locB.user, locC.user] ∧
      locD.user ∉ cl.user_ids) := by
  have hAB : sampleDistance locA locB = 0 := by
    simp only [sampleDistance, locA, locB, locSample]
    exact hotspot_distance_self _ _
  have hAC : sampleDistance locA locC = 0 := by
    simp only [sampleDistance, locA, locC, locSample]
    exact hotspot_distance_self _ _
  have hBC : sampleDistance locB locC = 0 := by
    simp only [sampleDistance, locB, locC, locSample]
    exact hotspot_distance_self _ _
  have hDA : sampleDistance locD locA = 6371 * (Real.pi / 2) := by
    simp only [sampleDistance, locD, locA, locSample]
    push_cast
    exact hotspot_distance_pole
  have hDB : sampleDistance locD locB = 6371 * (Real.pi / 2) := by
    simp only [sampleDistance, locD, locB, locSample]
    push_cast
    exact hotspot_distance_pole
  have hDC : sampleDistance locD locC = 6371 * (Real.pi / 2) := by
    simp only [sampleDistance, locD, locC, locSample]
    push_cast
    exact hotspot_distance_pole
  have hfar : (0.2 : ℝ) < 6371 * (Real.pi / 2) := by
    linarith [Real.pi_gt_three]
  have hcfg : C7Config locA locB locC locD :=
    { hab := by decide
      hac := by decide
      had := by decide
      hbc := by decide
      hbd := by decide
      hcd := by decide
      dab := by rw [hAB]; norm_num
      dac := by rw [hAC]; norm_num
      dbc := by rw [hBC]; norm_num
      dda := by rw [hDA]; exact hfar
      ddb := by rw [hDB]; exact hfar
      ddc := by rw [hDC]; exact hfar }
  exact ⟨hcfg, claim_C7_three_close_one_far (fun _ _ => ("", none))
    locA locB locC locD [locA, locB, locC, locD] hcfg (List.Perm.refl _)⟩

end ITravelSolo
